import Mathlib

/-!
Verification of the guilib 3D-rendering toolkit (Go) against its specification.

The development shallowly embeds the geometry pipeline (vectors, 4x4 matrices,
triangles), the model-file loader, and the run-loop quit protocol. Go `float64`
values are modelled as real numbers (exact arithmetic); `math.Sqrt`, `math.Acos`,
`math.Cos`, `math.Sin`, `math.Tan` become `Real.sqrt`, `Real.arccos`, `Real.cos`,
`Real.sin`, `Real.tan`. Go machine integers are modelled by `Nat`/`Int` with the
range checks the library performs made explicit. Fallible parsing returns an
explicit result type; Go runtime panics (out-of-range indexing, short slices)
are modelled by a dedicated `crash` outcome.
-/

namespace GuiLib

noncomputable section

/-- Embeds `components.Vector` (vector.go): a 4-component homogeneous vector of
`float64`, modelled over `ℝ`. -/
structure Vector where
  x : ℝ
  y : ℝ
  z : ℝ
  w : ℝ

/-- Embeds `components.New` (vector.go): a point constructor with `w = 1`. -/
def Vector.New (x y z : ℝ) : Vector := ⟨x, y, z, 1⟩

/-- Embeds `Vector.DotProduct` (vector.go): 3-component dot product, `w` ignored. -/
def Vector.DotProduct (v v1 : Vector) : ℝ :=
  v.x * v1.x + v.y * v1.y + v.z * v1.z

/-- Embeds `Vector.Length` (vector.go): `math.Sqrt(v.DotProduct(v))`. -/
def Vector.Length (v : Vector) : ℝ := Real.sqrt (v.DotProduct v)

/-- Embeds `Vector.Normalize` (vector.go): componentwise division by the length,
`w` preserved. Division by a zero length is Go IEEE division; over `ℝ` it is
Lean's total division (the sources document zero length as caller error). -/
def Vector.Normalize (v : Vector) : Vector :=
  let l := v.Length
  ⟨v.x / l, v.y / l, v.z / l, v.w⟩

/-- Embeds `Vector.CrossProduct` (vector.go): 3D cross product, keeping the
receiver's `w`. -/
def Vector.CrossProduct (v v1 : Vector) : Vector :=
  ⟨v.y * v1.z - v.z * v1.y,
   v.z * v1.x - v.x * v1.z,
   v.x * v1.y - v.y * v1.x,
   v.w⟩

/-- Embeds `Vector.Add` (vector.go). -/
def Vector.Add (v v1 : Vector) : Vector :=
  ⟨v.x + v1.x, v.y + v1.y, v.z + v1.z, v.w⟩

/-- Embeds `Vector.Subtract` (vector.go). -/
def Vector.Subtract (v v1 : Vector) : Vector :=
  ⟨v.x - v1.x, v.y - v1.y, v.z - v1.z, v.w⟩

/-- Embeds `Vector.Multiply` (vector.go): scalar multiplication, `w` preserved. -/
def Vector.Multiply (v : Vector) (l : ℝ) : Vector :=
  ⟨v.x * l, v.y * l, v.z * l, v.w⟩

/-- Embeds `Vector.Divide` (vector.go): scalar division where a zero divisor is
first replaced by 1, and the result `w` is set to the (possibly replaced)
divisor. -/
def Vector.Divide (v : Vector) (l : ℝ) : Vector :=
  let l1 := if l = 0 then 1 else l
  ⟨v.x / l1, v.y / l1, v.z / l1, l1⟩

/-- Embeds `matrix.Matrix4X4` (matrix.go): a row-major 4x4 `float64` matrix. -/
abbrev Matrix4X4 := Fin 4 → Fin 4 → ℝ

/-- Embeds `Vector.MatrixMultiply` (vector.go): result component `i` is
`Σⱼ v[j]·M[i][j]`. -/
def Vector.MatrixMultiply (v : Vector) (m : Matrix4X4) : Vector :=
  ⟨v.x * m 0 0 + v.y * m 0 1 + v.z * m 0 2 + v.w * m 0 3,
   v.x * m 1 0 + v.y * m 1 1 + v.z * m 1 2 + v.w * m 1 3,
   v.x * m 2 0 + v.y * m 2 1 + v.z * m 2 2 + v.w * m 2 3,
   v.x * m 3 0 + v.y * m 3 1 + v.z * m 3 2 + v.w * m 3 3⟩

/-- Embeds `matrix.Identity` (matrix.go). -/
def Identity : Matrix4X4 :=
  ![![1, 0, 0, 0],
    ![0, 1, 0, 0],
    ![0, 0, 1, 0],
    ![0, 0, 0, 1]]

/-- Embeds `matrix.Projection` (matrix.go): perspective matrix with aspect
`height/width`, focal factor `1/tan(fovDeg/360·π)`, and depth row
`{0, 0, far/(far-near), -far·near/(far-near)}`, last row `{0, 0, 1, 0}`. -/
def Projection (width height fovDeg near far : ℝ) : Matrix4X4 :=
  let a := height / width
  let f := 1 / Real.tan (fovDeg / 360 * Real.pi)
  ![![a * f, 0, 0, 0],
    ![0, f, 0, 0],
    ![0, 0, far / (far - near), (-far * near) / (far - near)],
    ![0, 0, 1, 0]]

/-- Embeds `matrix.RotateXYZ` (matrix.go): the fused Euler rotation matrix. -/
def RotateXYZ (x y z : ℝ) : Matrix4X4 :=
  let cosX := Real.cos x
  let sinX := Real.sin x
  let cosY := Real.cos y
  let sinY := Real.sin y
  let cosZ := Real.cos z
  let sinZ := Real.sin z
  ![![cosY * cosZ, sinX * sinY * cosZ - cosX * sinZ, cosX * sinY * cosZ + sinX * sinZ, 0],
    ![cosY * sinZ, sinX * sinY * sinZ + cosX * cosZ, cosX * sinY * sinZ - sinX * cosZ, 0],
    ![-sinY, sinX * cosY, cosX * cosY, 0],
    ![0, 0, 0, 1]]

/-- Embeds `matrix.RotateX` (matrix.go). -/
def RotateX (angle : ℝ) : Matrix4X4 :=
  ![![1, 0, 0, 0],
    ![0, Real.cos angle, -Real.sin angle, 0],
    ![0, Real.sin angle, Real.cos angle, 0],
    ![0, 0, 0, 1]]

/-- Embeds `matrix.RotateY` (matrix.go). -/
def RotateY (angle : ℝ) : Matrix4X4 :=
  ![![Real.cos angle, 0, Real.sin angle, 0],
    ![0, 1, 0, 0],
    ![-Real.sin angle, 0, Real.cos angle, 0],
    ![0, 0, 0, 1]]

/-- Embeds `matrix.RotateZ` (matrix.go). The second row of the Go array literal
has only three entries; the missing fourth entry is zero-valued in Go. -/
def RotateZ (angle : ℝ) : Matrix4X4 :=
  ![![Real.cos angle, -Real.sin angle, 0, 0],
    ![Real.sin angle, Real.cos angle, 0, 0],
    ![0, 0, 1, 0],
    ![0, 0, 0, 1]]

/-- Embeds `matrix.PointAt` (matrix.go). -/
def PointAt (pos target up : Vector) : Matrix4X4 :=
  let newForward := (target.Subtract pos).Normalize
  let newUp := (up.Subtract (newForward.Multiply (up.DotProduct newForward))).Normalize
  let newRight := newUp.CrossProduct newForward
  ![![newRight.x, newRight.y, newRight.z, 0],
    ![newUp.x, newUp.y, newUp.z, 0],
    ![newForward.x, newForward.y, newForward.z, 0],
    ![pos.x, pos.y, pos.z, 1]]

/-- Embeds `matrix.LookAtMatrix` (matrix.go), including the translation row
exactly as written in the source: its third component's last product is
`pos.z * newForward.y`. -/
def LookAtMatrix (pos target up : Vector) : Matrix4X4 :=
  let newForward := (target.Subtract pos).Normalize
  let newUp := (up.Subtract (newForward.Multiply (up.DotProduct newForward))).Normalize
  let newRight := newUp.CrossProduct newForward
  ![![newRight.x, newUp.x, newForward.x, 0],
    ![newRight.y, newUp.y, newForward.y, 0],
    ![newRight.z, newUp.z, newForward.z, 0],
    ![-(pos.x * newRight.x + pos.y * newRight.y + pos.z * newRight.z),
      -(pos.x * newUp.x + pos.y * newUp.y + pos.z * newUp.z),
      -(pos.x * newForward.x + pos.y * newForward.y + pos.z * newForward.y),
      1]]

/-- Embeds `Matrix4X4.Multiply` (matrix.go): the standard 4x4 product,
`(A·B)[r][c] = Σₖ A[r][k]·B[k][c]`. -/
def Matrix4X4.Multiply (m m1 : Matrix4X4) : Matrix4X4 := fun r c =>
  m r 0 * m1 0 c + m r 1 * m1 1 c + m r 2 * m1 2 c + m r 3 * m1 3 c

/-- Embeds `geometry.Triangle` (triangle.go): three vertices, derived normal,
normal-incidence and view-incidence angles, and a packed 32-bit RGBA color
(modelled as a `Nat` below `2^32`). -/
structure Triangle where
  vs : Fin 3 → Vector
  normal : Vector
  normalI : ℝ
  incident : ℝ
  color : ℕ

/-- Embeds the package-level `origin` reference direction of triangle.go:
`&Vector{x: 0, y: 0, z: 1}` (the `w` field takes Go's zero value). -/
def origin : Vector := ⟨0, 0, 1, 0⟩

/-- Embeds `Triangle.Normal` (triangle.go): first sets each vertex `z` to its
`w`, then computes the unit normal from the two edge vectors, and derives
`normalI` (angle to `origin`) and `incident` (angle to `screen`) via `acos`. -/
def Triangle.Normal (t : Triangle) (screen : Vector) : Triangle :=
  let vs1 : Fin 3 → Vector := fun i => { t.vs i with z := (t.vs i).w }
  let v1 := (vs1 1).Subtract (vs1 0)
  let v2 := (vs1 2).Subtract (vs1 0)
  let n := (v1.CrossProduct v2).Normalize
  { vs := vs1
    normal := n
    normalI := Real.arccos (n.DotProduct origin / n.Length)
    incident := Real.arccos (n.DotProduct screen / n.Length)
    color := t.color }

/-- Embeds `Triangle.IsVisible` (triangle.go): the Go body is
`return t.normalI < math.Pi/2`. -/
def Triangle.IsVisible (t : Triangle) : Prop := t.normalI < Real.pi / 2

/-- Embeds `Triangle.Multiply` (triangle.go): builds a fresh triangle whose
vertices are the receiver's multiplied by the matrix; `normal`, `incident`,
`normalI` and `color` are copied over unchanged. -/
def Triangle.Multiply (t : Triangle) (m : Matrix4X4) : Triangle :=
  { vs := fun i => (t.vs i).MatrixMultiply m
    normal := t.normal
    normalI := t.normalI
    incident := t.incident
    color := t.color }

/-- Embeds `Triangle.Project` (triangle.go): multiplies each vertex by the
projection matrix, then divides each resulting vertex by its own `w`; derived
fields are copied over unchanged. -/
def Triangle.Project (t : Triangle) (projection : Matrix4X4) : Triangle :=
  let pvs : Fin 3 → Vector := fun i => (t.vs i).MatrixMultiply projection
  { vs := fun i => (pvs i).Divide (pvs i).w
    normal := t.normal
    normalI := t.normalI
    incident := t.incident
    color := t.color }

/-- Embeds `Triangle.TranslateXYZ` (triangle.go): adds the offset (a direction
vector, `w` zero-valued in Go) to every vertex; derived fields copied over. -/
def Triangle.TranslateXYZ (t : Triangle) (x y z : ℝ) : Triangle :=
  let offset : Vector := ⟨x, y, z, 0⟩
  { vs := fun i => (t.vs i).Add offset
    normal := t.normal
    normalI := t.normalI
    incident := t.incident
    color := t.color }

/-- Embeds `Triangle.R` (triangle.go): `uint8(color >> 24)`. -/
def Triangle.R (t : Triangle) : ℕ := t.color / 2 ^ 24 % 256

/-- Embeds `Triangle.G` (triangle.go): `uint8(color >> 16)`. -/
def Triangle.G (t : Triangle) : ℕ := t.color / 2 ^ 16 % 256

/-- Embeds `Triangle.B` (triangle.go): `uint8(color >> 8)`. -/
def Triangle.B (t : Triangle) : ℕ := t.color / 2 ^ 8 % 256

/-- Embeds `Triangle.A` (triangle.go): `uint8(color)`. -/
def Triangle.A (t : Triangle) : ℕ := t.color % 256

instance : Inhabited Vector := ⟨⟨0, 0, 0, 0⟩⟩

instance : Inhabited Triangle :=
  ⟨⟨![default, default, default], default, 0, 0, 0⟩⟩

/-- Embeds `components.Object` (object.go): a list of triangles plus an
optional translation offset. -/
structure Object where
  ts : List Triangle
  offset : Option Vector

/-- Outcome of a loader step: a value, a Go `error` carrying the 1-based source
line number and a short message tag, or a Go runtime panic. -/
inductive PRes (α : Type) where
  | ok (a : α)
  | err (line : ℕ) (msg : String)
  | crash (msg : String)

/-- Models a Go string as its character sequence; lines are processed as
`List Char` so that every scanning step is structurally recursive. -/
abbrev Chars := List Char

/-- Models `strings.Split(s, sep)` for a single-character separator (the only
form object.go uses): consecutive separators produce empty fields and the
empty input yields one empty field, as in Go. -/
def splitOnChar (sep : Char) : Chars → List Chars
  | [] => [[]]
  | c :: rest =>
    let r := splitOnChar sep rest
    if c = sep then [] :: r
    else
      match r with
      | g :: gs => (c :: g) :: gs
      | [] => [[c]]

/-- Models `strings.TrimSpace` (object.go): strips leading and trailing
whitespace characters. -/
def trimChars (cs : Chars) : Chars :=
  ((cs.dropWhile Char.isWhitespace).reverse.dropWhile Char.isWhitespace).reverse

/-- Decimal digit-string value: `some` exactly when the field is non-empty and
all digits, as for Go's base-10 `strconv` parsers. -/
def digitsToNat (cs : Chars) : Option ℕ :=
  if cs ≠ [] ∧ cs.all Char.isDigit
  then some (cs.foldl (fun n c => n * 10 + (c.toNat - 48)) 0)
  else none

/-- Models `strconv.ParseUint(s, 10, 8)` (used by object.go): a non-empty
all-digit decimal string whose value fits in 8 bits; anything else is an
error (`none`), including values above 255 (Go's `ErrRange`). -/
def parseUint8 (s : Chars) : Option ℕ :=
  match digitsToNat s with
  | some n => if n ≤ 255 then some n else none
  | none => none

/-- Models `strconv.ParseInt(s, 10, 32)` (used by object.go): an optional sign
followed by decimal digits, with the 32-bit signed range check. -/
def parseInt32 (s : Chars) : Option ℤ :=
  match s with
  | ('-') :: rest =>
    match digitsToNat rest with
    | some n => if (n : ℤ) ≤ 2 ^ 31 then some (-(n : ℤ)) else none
    | none => none
  | ('+') :: rest =>
    match digitsToNat rest with
    | some n => if (n : ℤ) ≤ 2 ^ 31 - 1 then some (n : ℤ) else none
    | none => none
  | _ =>
    match digitsToNat s with
    | some n => if (n : ℤ) ≤ 2 ^ 31 - 1 then some (n : ℤ) else none
    | none => none

/-- Helper for `parseFloat`: integer and fraction digit groups around the
decimal point (either may be empty, not both). -/
def parseFloatParts (a b : Chars) : Option ℚ :=
  if a = [] ∧ b = [] then none
  else
    let ai : Option ℕ := if a = [] then some 0 else digitsToNat a
    let bi : Option ℕ := if b = [] then some 0 else digitsToNat b
    match ai, bi with
    | some n, some f => some ((n : ℚ) + (f : ℚ) / (10 : ℚ) ^ b.length)
    | _, _ => none

/-- Helper for `parseFloat`: an unsigned decimal with optional fraction. -/
def parseFloatBody (t : Chars) : Option ℚ :=
  match splitOnChar ('.') t with
  | [a] => (digitsToNat a).map (fun n => (n : ℚ))
  | [a, b] => parseFloatParts a b
  | _ => none

/-- Models `strconv.ParseFloat(s, 32)` (used by object.go) restricted to plain
decimal notation (optional sign, digits, optional fraction), which is the
grammar the model format uses; the parsed value is taken exactly, i.e. the
rounding to `float32` is idealized away in the real-number model. -/
def parseFloat (s : Chars) : Option ℚ :=
  match s with
  | ('-') :: rest => (parseFloatBody rest).map (fun q => -q)
  | ('+') :: rest => parseFloatBody rest
  | _ => parseFloatBody s

/-- Embeds `parseVector` (object.go): splits the trimmed line on single spaces,
requires 3 or 4 float fields, and defaults `w` to 1 when only 3 are given. -/
def parseVector (line : Chars) (lineCnt : ℕ) : PRes Vector :=
  let xyzw := splitOnChar (' ') (trimChars line)
  if xyzw.length < 3 then .err lineCnt ("too few values")
  else if xyzw.length > 4 then .err lineCnt ("too many values")
  else
    match parseFloat (xyzw.getD 0 []) with
    | none => .err lineCnt ("bad x")
    | some x =>
      match parseFloat (xyzw.getD 1 []) with
      | none => .err lineCnt ("bad Y")
      | some y =>
        match parseFloat (xyzw.getD 2 []) with
        | none => .err lineCnt ("bad Z")
        | some z =>
          if xyzw.length = 4 then
            match parseFloat (xyzw.getD 3 []) with
            | none => .err lineCnt ("bad W")
            | some w => .ok ⟨(x : ℝ), (y : ℝ), (z : ℝ), (w : ℝ)⟩
          else .ok ⟨(x : ℝ), (y : ℝ), (z : ℝ), 1⟩

/-- Models Go slice indexing `pts[i-1]` as used by `parseFace` (object.go):
`some` when the index is in range, `none` when Go would panic. -/
def sliceIndex (pts : List Vector) (i : ℤ) : Option Vector :=
  if h : 0 ≤ i - 1 ∧ (i - 1).toNat < pts.length
  then some (pts.get ⟨(i - 1).toNat, h.2⟩)
  else none

/-- Embeds `parseFace` (object.go): exactly 3 integer fields; each is used
directly as a 1-based index into the vertex list WITHOUT a bounds check, so an
out-of-range index is a runtime panic (`crash`), not a returned error. The new
triangle's `normal` is `{0,0,0,1}`, the remaining derived fields take Go zero
values, and the color is `0xFFFFFFFF`. -/
def parseFace (pts : List Vector) (line : Chars) (lineCnt : ℕ) : PRes Triangle :=
  let xyz := splitOnChar (' ') (trimChars line)
  if xyz.length ≠ 3 then .err lineCnt ("bad face")
  else
    match parseInt32 (xyz.getD 0 []) with
    | none => .err lineCnt ("bad x")
    | some i1 =>
      match parseInt32 (xyz.getD 1 []) with
      | none => .err lineCnt ("bad Y")
      | some i2 =>
        match parseInt32 (xyz.getD 2 []) with
        | none => .err lineCnt ("bad Z")
        | some i3 =>
          match sliceIndex pts i1, sliceIndex pts i2, sliceIndex pts i3 with
          | some p1, some p2, some p3 =>
            .ok ⟨![p1, p2, p3], ⟨0, 0, 0, 1⟩, 0, 0, 0xFFFFFFFF⟩
          | _, _, _ => .crash ("index out of range")

/-- Embeds `parseFaceColor` (object.go): a 1-based face index parsed with
`ParseUint(·, 10, 8)` and explicitly range-checked against the face count, then
up to four 8-bit channel values with alpha defaulting to 255; updates exactly
the indexed triangle's packed color. -/
def parseFaceColor (ts : List Triangle) (line : Chars) (lineCnt : ℕ) :
    PRes (List Triangle) :=
  let irgba := splitOnChar (' ') (trimChars line)
  if irgba.length < 1 then .err lineCnt ("too few color entries")
  else
    let l := irgba.length
    match parseUint8 (irgba.getD 0 []) with
    | none => .err lineCnt ("bad i")
    | some i =>
      if i < 1 ∨ i > ts.length then .err lineCnt ("bad i range")
      else
        match (if l > 1 then parseUint8 (irgba.getD 1 []) else some 0) with
        | none => .err lineCnt ("bad r")
        | some r =>
          match (if l > 2 then parseUint8 (irgba.getD 2 []) else some 0) with
          | none => .err lineCnt ("bad g")
          | some g =>
            match (if l > 3 then parseUint8 (irgba.getD 3 []) else some 0) with
            | none => .err lineCnt ("bad b")
            | some b =>
              match (if l > 4 then parseUint8 (irgba.getD 4 []) else some 255) with
              | none => .err lineCnt ("bad a")
              | some a =>
                let c := r % 256 * 2 ^ 24 + g % 256 * 2 ^ 16 + b % 256 * 2 ^ 8 + a % 256
                .ok (ts.set (i - 1) { ts.getD (i - 1) default with color := c })

/-- Embeds the scanner loop of `LoadObject` (object.go) over the file's lines:
empty lines are skipped, known prefixes are dispatched, unknown prefixes are
logged and skipped; the first error aborts the load. A line of length 1 makes
Go's `line[:2]` panic, modelled by `crash`. -/
def loadLines : List Chars → List Vector → List Triangle → ℕ → PRes Object
  | [], _, ts, _ => .ok ⟨ts, none⟩
  | line :: rest, pts, ts, lineCnt =>
    let n := lineCnt + 1
    if line.length = 0 then loadLines rest pts ts n
    else if line.length < 2 then .crash ("slice bounds out of range")
    else
      let tag := line.take 2
      if tag = ("# ").data then loadLines rest pts ts n
      else if tag = ("v ").data then
        match parseVector (line.drop 1) n with
        | .ok pt => loadLines rest (pts ++ [pt]) ts n
        | .err l m => .err l m
        | .crash m => .crash m
      else if tag = ("vt").data ∨ tag = ("vn").data ∨ tag = ("vp").data ∨
          tag = ("l ").data then
        loadLines rest pts ts n
      else if tag = ("f ").data then
        match parseFace pts (line.drop 1) n with
        | .ok t => loadLines rest pts (ts ++ [t]) n
        | .err l m => .err l m
        | .crash m => .crash m
      else if tag = ("xc").data then
        match parseFaceColor ts (line.drop 2) n with
        | .ok ts1 => loadLines rest pts ts1 n
        | .err l m => .err l m
        | .crash m => .crash m
      else loadLines rest pts ts n

/-- Embeds `LoadObject` (object.go) from the point where the file's lines are
scanned (the filename-resolution and I/O preamble is outside the model): the
loader starts with empty vertex and triangle lists and a zero line counter. -/
def LoadObject (lines : List String) : PRes Object :=
  loadLines (lines.map (fun l => l.data)) [] [] 0

end

/-- Embeds `runState` (core.go). -/
inductive runState where
  | initialized
  | running
  | terminating
  | stopped
deriving DecidableEq

/-- Embeds the run-loop fields of `Canvas` (core.go) that `Quit` touches: the
lifecycle state and whether the framerate ticker is running. The window,
renderer, handler, lock and channels are external collaborators carried
opaquely by the Go struct and are not modelled. -/
structure Canvas where
  state : runState
  timerRunning : Bool
deriving DecidableEq

/-- One observable step of `Canvas.Quit` (core.go): a state assignment, the
ticker stop, the (blocking) send on the `done` channel, the (blocking)
`glwg.Wait()`, or a log line. -/
inductive QuitEvent where
  | setState (s : runState)
  | stopTimer
  | sendDone
  | waitGameLoop
  | logLine (msg : String)
deriving DecidableEq

/-- Whether a quit step can block the caller: the unbuffered channel send and
the wait-group wait do; state writes, the ticker stop and logging do not. -/
def QuitEvent.blocks : QuitEvent → Bool
  | .sendDone => true
  | .waitGameLoop => true
  | _ => false

/-- Embeds the straight-line body of `Canvas.Quit` (core.go) as the ordered
trace of steps it performs from a given canvas state. -/
def Canvas.quitTrace (c : Canvas) : List QuitEvent :=
  if c.state = .running then
    [.logLine ("terminating"), .setState .terminating,
     .logLine ("stopping framerate timer"), .stopTimer,
     .logLine ("Ending framerate timer"), .sendDone,
     .logLine ("waiting for game loop to exit"), .waitGameLoop,
     .logLine ("Game loop complete."), .setState .stopped]
  else
    [.logLine ("already quitting")]

/-- Effect of one quit step on the modelled canvas fields. -/
def Canvas.applyQuitEvent (c : Canvas) : QuitEvent → Canvas
  | .setState s => { c with state := s }
  | .stopTimer => { c with timerRunning := false }
  | _ => c

/-- Embeds `Canvas.Quit` (core.go): the canvas after executing the quit trace. -/
def Canvas.Quit (c : Canvas) : Canvas :=
  c.quitTrace.foldl Canvas.applyQuitEvent c

/-- C4: for every vector `v` and scalar `l`, `Divide` returns a new vector:
when `l ≠ 0` the result is `(v.x/l, v.y/l, v.z/l)` with `w` set to the divisor;
when `l = 0` the divisor is silently substituted by 1, so `x`, `y`, `z` are
unchanged and the result's `w` is that (substituted) divisor value. -/
theorem divide_spec (v : Vector) (l : ℝ) :
    (l ≠ 0 → v.Divide l = ⟨v.x / l, v.y / l, v.z / l, l⟩) ∧
    (l = 0 → v.Divide l = ⟨v.x, v.y, v.z, 1⟩) := by
  constructor
  · intro h
    simp [Vector.Divide, h]
  · intro h
    subst h
    simp [Vector.Divide]

/-- Witness for `divide_spec` at the concrete vector `(3,4,5,6)` with divisors
2 and 0. -/
theorem divide_spec_witness :
    (Vector.mk 3 4 5 6).Divide 2 = ⟨3 / 2, 4 / 2, 5 / 2, 2⟩ ∧
    (Vector.mk 3 4 5 6).Divide 0 = ⟨3, 4, 5, 1⟩ :=
  ⟨(divide_spec ⟨3, 4, 5, 6⟩ 2).1 (by norm_num), (divide_spec ⟨3, 4, 5, 6⟩ 0).2 rfl⟩

/-- C8: the fused rotation matrix `RotateXYZ x y z` equals the chained product
`RotateZ z · RotateY y · RotateX x` computed with the source's 4x4 `Multiply`,
entry by entry over exact arithmetic on the same sine/cosine values. -/
theorem rotateXYZ_eq_chained (x y z : ℝ) :
    RotateXYZ x y z = ((RotateZ z).Multiply (RotateY y)).Multiply (RotateX x) := by
  funext i j
  fin_cases i <;> fin_cases j <;>
    simp [RotateXYZ, RotateX, RotateY, RotateZ, Matrix4X4.Multiply, Matrix.vecHead,
      Matrix.vecTail] <;> ring

/-- C9: `Triangle.Multiply` returns a triangle whose vertices are the
receiver's multiplied by the matrix while `normal`, `normalI`, `incident` and
`color` are carried over unchanged (not recomputed); `Project` and
`TranslateXYZ` likewise carry the derived fields over. All three construct a
fresh triangle from a pure function of the receiver, which is left unchanged. -/
theorem transform_carries_derived_fields (t : Triangle) (m p : Matrix4X4)
    (x y z : ℝ) :
    (∀ i, (t.Multiply m).vs i = (t.vs i).MatrixMultiply m) ∧
    (t.Multiply m).normal = t.normal ∧
    (t.Multiply m).normalI = t.normalI ∧
    (t.Multiply m).incident = t.incident ∧
    (t.Multiply m).color = t.color ∧
    (t.Project p).normal = t.normal ∧
    (t.Project p).normalI = t.normalI ∧
    (t.Project p).incident = t.incident ∧
    (t.Project p).color = t.color ∧
    (t.TranslateXYZ x y z).normal = t.normal ∧
    (t.TranslateXYZ x y z).normalI = t.normalI ∧
    (t.TranslateXYZ x y z).incident = t.incident ∧
    (t.TranslateXYZ x y z).color = t.color :=
  ⟨fun _ => rfl, rfl, rfl, rfl, rfl, rfl, rfl, rfl, rfl, rfl, rfl, rfl, rfl⟩

/-- C7: the projection constructor returns exactly the matrix
`[[(height/width)·f, 0, 0, 0], [0, f, 0, 0], [0, 0, far/(far-near),
-far·near/(far-near)], [0, 0, 1, 0]]` with `f = 1/tan(fovDeg·π/360)`, and
consequently applying it to any vector yields an output `w` equal to the input
`z`. -/
theorem projection_layout_and_w (width height fovDeg near far : ℝ) :
    (Projection width height fovDeg near far =
      ![![height / width * (1 / Real.tan (fovDeg * Real.pi / 360)), 0, 0, 0],
        ![0, 1 / Real.tan (fovDeg * Real.pi / 360), 0, 0],
        ![0, 0, far / (far - near), -far * near / (far - near)],
        ![0, 0, 1, 0]]) ∧
    ∀ v : Vector, (v.MatrixMultiply (Projection width height fovDeg near far)).w = v.z := by
  have harg : fovDeg / 360 * Real.pi = fovDeg * Real.pi / 360 := by ring
  constructor
  · funext i j
    fin_cases i <;> fin_cases j <;>
      simp [Projection, harg, Matrix.vecHead, Matrix.vecTail]
  · intro v
    simp [Vector.MatrixMultiply, Projection, Matrix.vecHead, Matrix.vecTail]

/-- C6: `Quit` in any state other than `running` leaves the modelled canvas
unchanged, performs no blocking step and no state write (its trace is a single
log line); `Quit` while `running` performs, in order: set `terminating`, stop
the ticker, send the done signal, block on the game-loop wait group, and only
then set `stopped`, leaving the canvas stopped with the timer stopped. -/
theorem quit_state_machine (c : Canvas) :
    (c.state ≠ .running →
      c.Quit = c ∧
      c.quitTrace = [.logLine ("already quitting")] ∧
      ∀ e ∈ c.quitTrace, e.blocks = false) ∧
    (c.state = .running →
      c.Quit = { c with state := .stopped, timerRunning := false } ∧
      c.quitTrace =
        [.logLine ("terminating"), .setState .terminating,
         .logLine ("stopping framerate timer"), .stopTimer,
         .logLine ("Ending framerate timer"), .sendDone,
         .logLine ("waiting for game loop to exit"), .waitGameLoop,
         .logLine ("Game loop complete."), .setState .stopped]) := by
  obtain ⟨s, tr⟩ := c
  constructor
  · intro h
    refine ⟨?_, ?_, ?_⟩ <;>
      simp_all [Canvas.Quit, Canvas.quitTrace, Canvas.applyQuitEvent, QuitEvent.blocks]
  · intro h
    simp only at h
    subst h
    refine ⟨?_, ?_⟩ <;> rfl

/-- Witness for `quit_state_machine`: a stopped canvas is unchanged by `Quit`
(second quit is a no-op), and a running canvas ends up stopped with the timer
stopped. -/
theorem quit_state_machine_witness :
    (Canvas.mk .stopped false).Quit = ⟨.stopped, false⟩ ∧
    (Canvas.mk .running true).Quit = ⟨.stopped, false⟩ :=
  ⟨((quit_state_machine ⟨.stopped, false⟩).1 (by decide)).1,
   ((quit_state_machine ⟨.running, true⟩).2 rfl).1⟩

/-- A concrete triangle used to exercise `Triangle.Normal`: unit square corner
vertices with `w = 1` (the `z` values are irrelevant because `Normal` first
overwrites each vertex `z` with its `w`). -/
noncomputable def sampleTriangle : Triangle :=
  ⟨![⟨0, 0, 5, 1⟩, ⟨1, 0, 7, 1⟩, ⟨0, 1, 9, 1⟩], ⟨0, 0, 0, 1⟩, 0, 0, 0⟩

/-- After `Normal` with view direction `(0,0,-1)`, `sampleTriangle`'s normal is
`(0,0,1)`, so its normal incidence is 0 while its view incidence is π. -/
theorem sampleTriangle_normal_angles :
    (sampleTriangle.Normal ⟨0, 0, -1, 1⟩).normalI = 0 ∧
    (sampleTriangle.Normal ⟨0, 0, -1, 1⟩).incident = Real.pi := by
  constructor <;>
    · show Real.arccos _ = _
      norm_num [sampleTriangle, Vector.Subtract, Vector.CrossProduct,
        Vector.Normalize, Vector.Length, Vector.DotProduct, origin,
        Real.sqrt_one, Real.arccos_one, Real.arccos_neg_one,
        Matrix.vecHead, Matrix.vecTail]

/-- C1 counterexample: a triangle whose normal has been computed with the view
direction `(0,0,-1)` has view incidence π yet `IsVisible` holds, because the
source tests `normalI` (the angle to the fixed reference `(0,0,1)`), not the
view incidence; so visibility is not equivalent to `viewIncidence < π/2`. -/
theorem isVisible_claim_counterexample :
    (sampleTriangle.Normal ⟨0, 0, -1, 1⟩).incident = Real.pi ∧
    ¬ ((sampleTriangle.Normal ⟨0, 0, -1, 1⟩).IsVisible ↔
        (sampleTriangle.Normal ⟨0, 0, -1, 1⟩).incident < Real.pi / 2) := by
  obtain ⟨h0, hpi⟩ := sampleTriangle_normal_angles
  refine ⟨hpi, fun hiff => ?_⟩
  have hvis : (sampleTriangle.Normal ⟨0, 0, -1, 1⟩).IsVisible := by
    rw [Triangle.IsVisible, h0]
    positivity
  have := hiff.mp hvis
  rw [hpi] at this
  linarith [Real.pi_pos]

/-- C1 amended: `IsVisible` holds iff the NORMAL incidence (the stored angle
between the face normal and the fixed reference direction `(0,0,1)`) is
strictly less than π/2; the view incidence is not consulted, a triangle with
`normalI = π` reports false, and one with `normalI = 0` reports true. -/
theorem isVisible_tests_normal_incidence (t : Triangle) :
    (t.IsVisible ↔ t.normalI < Real.pi / 2) ∧
    (t.normalI = Real.pi → ¬ t.IsVisible) ∧
    (t.normalI = 0 → t.IsVisible) ∧
    (∀ r : ℝ, (Triangle.mk t.vs t.normal t.normalI r t.color).IsVisible ↔
      t.IsVisible) := by
  refine ⟨Iff.rfl, ?_, ?_, fun _ => Iff.rfl⟩
  · intro h
    rw [Triangle.IsVisible, h]
    intro hc
    linarith [Real.pi_pos]
  · intro h
    rw [Triangle.IsVisible, h]
    positivity

/-- Witness for `isVisible_tests_normal_incidence` at concrete triangles whose
stored normal incidence is π (not visible) and 0 (visible). -/
theorem isVisible_tests_normal_incidence_witness :
    ¬ (Triangle.mk ![origin, origin, origin] origin Real.pi 0 0).IsVisible ∧
    (Triangle.mk ![origin, origin, origin] origin 0 0 0).IsVisible :=
  ⟨(isVisible_tests_normal_incidence _).2.1 rfl,
   (isVisible_tests_normal_incidence _).2.2.1 rfl⟩

/-- Stated from the spec's words, for comparison with the source: the claimed
third translation component of `lookAt`, in which the `pos.y` term multiplies
`newForward.x` (instead of `newForward.z`) and the other two terms use
matching axes on both operands. -/
noncomputable def lookAtClaimedThirdTerm (pos target : Vector) : ℝ :=
  let newForward := (target.Subtract pos).Normalize;
  -(pos.x * newForward.x + pos.y * newForward.x + pos.z * newForward.z)

/-- C3 counterexample: at `pos = (0,0,1)`, `target = (0,0,2)`, `up = (0,1,0)`
the forward basis vector is `(0,0,1)`; the source's translation forward
component evaluates to 0 while the claim's formula (pos.y term paired with
`newForward.x`) evaluates to -1, so the claim misidentifies the deviation. -/
theorem lookAt_claim_counterexample :
    LookAtMatrix ⟨0, 0, 1, 1⟩ ⟨0, 0, 2, 1⟩ ⟨0, 1, 0, 1⟩ 3 2 ≠
      lookAtClaimedThirdTerm ⟨0, 0, 1, 1⟩ ⟨0, 0, 2, 1⟩ := by
  have hl : LookAtMatrix ⟨0, 0, 1, 1⟩ ⟨0, 0, 2, 1⟩ ⟨0, 1, 0, 1⟩ 3 2 = 0 := by
    norm_num [LookAtMatrix, Vector.Subtract, Vector.Normalize, Vector.Length,
      Vector.DotProduct, Vector.Multiply, Vector.CrossProduct, Real.sqrt_one,
      Matrix.vecHead, Matrix.vecTail]
  have hr : lookAtClaimedThirdTerm ⟨0, 0, 1, 1⟩ ⟨0, 0, 2, 1⟩ = -1 := by
    norm_num [lookAtClaimedThirdTerm, Vector.Subtract, Vector.Normalize,
      Vector.Length, Vector.DotProduct, Real.sqrt_one]
  rw [hl, hr]
  norm_num

/-- C3 amended: in `LookAtMatrix pos target up` the first two translation
components equal `-(pos·newRight)` and `-(pos·newUp)` exactly, and the third
(forward) component deviates from `-(pos·newForward)` in exactly one way: the
`pos.z` term multiplies `newForward.y` instead of `newForward.z` (so the
deviation is exactly `pos.z·(newForward.z - newForward.y)`), all other terms
matching axes on both operands. -/
theorem lookAt_translation_terms (pos target up : Vector) :
    let newForward := (target.Subtract pos).Normalize
    let newUp := (up.Subtract (newForward.Multiply (up.DotProduct newForward))).Normalize
    let newRight := newUp.CrossProduct newForward
    LookAtMatrix pos target up 3 0 = -(pos.DotProduct newRight) ∧
    LookAtMatrix pos target up 3 1 = -(pos.DotProduct newUp) ∧
    LookAtMatrix pos target up 3 2 =
      -(pos.x * newForward.x + pos.y * newForward.y + pos.z * newForward.y) ∧
    LookAtMatrix pos target up 3 2 - -(pos.DotProduct newForward) =
      pos.z * (newForward.z - newForward.y) := by
  refine ⟨?_, ?_, ?_, ?_⟩ <;>
    simp [LookAtMatrix, Vector.DotProduct, Matrix.vecHead, Matrix.vecTail] <;>
    ring

/-- C2: a face line with an out-of-range vertex index does NOT produce a parse
error: `parseFace` indexes the vertex list without a bounds check, so the load
panics (Go runtime index-out-of-range), modelled by the `crash` outcome. Here
three vertices are declared and the face references vertex 4. -/
theorem load_outOfRange_face_panics :
    LoadObject [("v 0 0 0"), ("v 1 0 0"), ("v 0 1 0"), ("f 1 2 4")] =
      .crash ("index out of range") := by
  rfl

/-- C5: for every vertex list declared by earlier lines and every face line
whose three fields parse to in-range 1-based indices `a`, `b`, `c`, the face
parser yields a triangle whose vertices are, by value, the declared vertices
`v_a`, `v_b`, `v_c`; and concretely, loading the model source
`v 0 0 0 / v 1 0 0 / v 0 1 0 / f 1 2 3 / xc 1 255 0 0` succeeds and yields
exactly one triangle with those vertices (with `w = 1`) and stored packed
color decoding to `R=255, G=0, B=0` with alpha defaulting to 255. -/
theorem load_roundtrip_scenario :
    (∀ (pts : List Vector) (line : Chars) (cnt : ℕ) (a b c : ℤ)
        (fa fb fc : Chars),
      splitOnChar (' ') (trimChars line) = [fa, fb, fc] →
      parseInt32 fa = some a → parseInt32 fb = some b → parseInt32 fc = some c →
      ∀ (ha : 0 ≤ a - 1) (hal : (a - 1).toNat < pts.length)
        (hb : 0 ≤ b - 1) (hbl : (b - 1).toNat < pts.length)
        (hc : 0 ≤ c - 1) (hcl : (c - 1).toNat < pts.length),
      parseFace pts line cnt =
        .ok ⟨![pts.get ⟨(a - 1).toNat, hal⟩, pts.get ⟨(b - 1).toNat, hbl⟩,
               pts.get ⟨(c - 1).toNat, hcl⟩],
             ⟨0, 0, 0, 1⟩, 0, 0, 0xFFFFFFFF⟩) ∧
    ∃ t : Triangle,
      LoadObject [("v 0 0 0"), ("v 1 0 0"), ("v 0 1 0"), ("f 1 2 3"),
          ("xc 1 255 0 0")] = .ok ⟨[t], none⟩ ∧
      t.vs 0 = ⟨0, 0, 0, 1⟩ ∧ t.vs 1 = ⟨1, 0, 0, 1⟩ ∧ t.vs 2 = ⟨0, 1, 0, 1⟩ ∧
      t.color = 0xFF0000FF ∧ t.R = 255 ∧ t.G = 0 ∧ t.B = 0 ∧ t.A = 255 := by
  constructor
  · intro pts line cnt a b c fa fb fc hsplit hpa hpb hpc ha hal hb hbl hc hcl
    have sa : sliceIndex pts a = some (pts.get ⟨(a - 1).toNat, hal⟩) := by
      unfold sliceIndex
      exact dif_pos ⟨ha, hal⟩
    have sb : sliceIndex pts b = some (pts.get ⟨(b - 1).toNat, hbl⟩) := by
      unfold sliceIndex
      exact dif_pos ⟨hb, hbl⟩
    have sc : sliceIndex pts c = some (pts.get ⟨(c - 1).toNat, hcl⟩) := by
      unfold sliceIndex
      exact dif_pos ⟨hc, hcl⟩
    simp [parseFace, hsplit, hpa, hpb, hpc, sa, sb, sc]
  · refine ⟨⟨![⟨((0 : ℚ) : ℝ), ((0 : ℚ) : ℝ), ((0 : ℚ) : ℝ), 1⟩,
              ⟨((1 : ℚ) : ℝ), ((0 : ℚ) : ℝ), ((0 : ℚ) : ℝ), 1⟩,
              ⟨((0 : ℚ) : ℝ), ((1 : ℚ) : ℝ), ((0 : ℚ) : ℝ), 1⟩],
            ⟨0, 0, 0, 1⟩, 0, 0, 0xFF0000FF⟩,
           rfl, ?_, ?_, ?_, rfl, rfl, rfl, rfl, rfl⟩ <;>
      norm_num [Matrix.vecHead, Matrix.vecTail]

/-- Witness for `load_roundtrip_scenario`: on the vertex list
`[(0,0,0,1), (5,6,7,1)]` the face line `1 2 1` parses to the triangle whose
vertices are, by value, the first, second and first declared vertices. -/
theorem load_roundtrip_scenario_witness :
    parseFace [⟨0, 0, 0, 1⟩, ⟨5, 6, 7, 1⟩] (("1 2 1").data) 3 =
      .ok ⟨![⟨0, 0, 0, 1⟩, ⟨5, 6, 7, 1⟩, ⟨0, 0, 0, 1⟩],
           ⟨0, 0, 0, 1⟩, 0, 0, 0xFFFFFFFF⟩ :=
  load_roundtrip_scenario.1 [⟨0, 0, 0, 1⟩, ⟨5, 6, 7, 1⟩] (("1 2 1").data) 3 1 2 1
    (("1").data) (("2").data) (("1").data) rfl rfl rfl rfl
    (by decide) (by decide) (by decide) (by decide) (by decide) (by decide)

/-- Values produced by the 8-bit unsigned parser never exceed 255. -/
theorem parseUint8_le {s : Chars} {n : ℕ} (h : parseUint8 s = some n) :
    n ≤ 255 := by
  unfold parseUint8 at h
  split at h
  next k hk =>
    split at h
    · cases h
      assumption
    · cases h
  next => cases h

set_option maxRecDepth 8000 in
/-- C10: the `xc` face index goes through the 8-bit unsigned parser, so
`parseFaceColor` never panics, any successful parse
has an index `i` with `1 ≤ i ≤ ts.length` and `i ≤ 255` (hence within
`min 255 (number of faces)`), index 255 is accepted on a 256-face model, and
index 256 is rejected as a parse error even though face 256 exists. -/
theorem faceColor_index_uint8 :
    (∀ (ts : List Triangle) (line : Chars) (c : ℕ) (m : String),
      parseFaceColor ts line c ≠ .crash m) ∧
    (∀ (ts : List Triangle) (line : Chars) (c : ℕ) (ts1 : List Triangle),
      parseFaceColor ts line c = .ok ts1 →
      ∃ i, parseUint8 ((splitOnChar (' ') (trimChars line)).getD 0 []) = some i ∧
        1 ≤ i ∧ i ≤ ts.length ∧ i ≤ 255) ∧
    (∃ ts1, parseFaceColor (List.replicate 256 default) (("255 9 9 9").data) 1 =
      .ok ts1) ∧
    parseFaceColor (List.replicate 256 default) (("256 9 9 9").data) 1 =
      .err 1 ("bad i") := by
  refine ⟨?_, ?_, ⟨_, rfl⟩, rfl⟩
  · intro ts line c m h
    simp only [parseFaceColor] at h
    repeat' split at h
    all_goals cases h
  · intro ts line c ts1 h
    simp only [parseFaceColor] at h
    split at h
    · cases h
    · split at h
      · cases h
      · rename_i i heq
        split at h
        · cases h
        · rename_i hrange
          refine ⟨i, heq, ?_, ?_, parseUint8_le heq⟩ <;> omega

/-- Witness for `faceColor_index_uint8`: a successful `xc 1 2 3 4` parse on a
one-triangle model has index 1, which is within both bounds. -/
theorem faceColor_index_uint8_witness :
    ∃ i, parseUint8 ((splitOnChar (' ')
        (trimChars (("1 2 3 4").data))).getD 0 []) = some i ∧
      1 ≤ i ∧ i ≤ [(default : Triangle)].length ∧ i ≤ 255 :=
  faceColor_index_uint8.2.1 [default] (("1 2 3 4").data) 7 _ rfl

end GuiLib
